import Mathlib

/-
Verification of the lazycluster runtime-management library.

The definitions below are shallow embeddings of the Python source under
src/lazycluster (runtimes.py, runtime_mgmt.py, _utils.py, exceptions.py,
cluster/hyperopt_cluster.py).  Python dicts are modelled as insertion-ordered
association lists with replace-on-update semantics, child processes by
abstract ids, and the SSH connection by an oracle function from a command
to its result.  Every definition is annotated with the source function it
embeds.
-/

namespace Lazycluster

/-! ## Constants (Runtime class attributes, runtimes.py lines 852-859) -/

/-- Runtime.WORKING_DIR_ENV_VAR_NAME = "WORKING_DIR" -/
def WORKING_DIR_ENV_VAR_NAME : String := "WORKING_DIR"

/-- Runtime.LOCALHOST = "localhost" -/
def LOCALHOST : String := "localhost"

/-- Runtime._PORT_TO_RUNTIME = "-R" -/
def PORT_TO_RUNTIME : String := "-R"

/-- Runtime._PORT_FROM_RUNTIME = "-L" -/
def PORT_FROM_RUNTIME : String := "-L"

/-- Runtime._PROCESS_KEY_DELIMITER = "::" -/
def PROCESS_KEY_DELIMITER : String := "::"

/-- The source constant holding the string "task" used as the middle component
of process keys of asynchronous task executions (runtimes.py line 859). -/
def TASK_PROCESS_KEY_KIND : String := "task"

/-! ## Python dict model

Python dict semantics as insertion-ordered association lists: assigning to an
existing key replaces its value in place, assigning to a fresh key appends,
`dict.update(d)` assigns every pair of `d` in order. -/

/-- Assignment m[k] = v on a Python dict. -/
def dict_set {β : Type} : List (String × β) → String → β → List (String × β)
  | [], k, v => [(k, v)]
  | (k₂, v₂) :: rest, k, v =>
      if k₂ = k then (k₂, v) :: rest else (k₂, v₂) :: dict_set rest k v

/-- Lookup m[k] on a Python dict, none when the key is absent. -/
def dict_lookup {β : Type} : List (String × β) → String → Option β
  | [], _ => none
  | (k₂, v₂) :: rest, k => if k₂ = k then some v₂ else dict_lookup rest k

/-- Membership test `k in m` on a Python dict. -/
def dict_mem {β : Type} (m : List (String × β)) (k : String) : Bool :=
  (dict_lookup m k).isSome

/-- m.update(d) on a Python dict: assign every pair of d in order. -/
def dict_update {β : Type} (m d : List (String × β)) : List (String × β) :=
  d.foldl (fun acc kv => dict_set acc kv.1 kv.2) m

/-! ## Process keys (runtimes.py lines 1873-1941) -/

/-- Runtime._create_process_key_for_task_execution (runtimes.py 1923-1941):
returns host + "::" + "task" + "::" + str(task.name). -/
def create_process_key_for_task_execution (host : String) (task_name : String) : String :=
  host ++ PROCESS_KEY_DELIMITER ++ TASK_PROCESS_KEY_KIND ++ PROCESS_KEY_DELIMITER ++ task_name

/-- Runtime._create_process_key_for_port_exposure (runtimes.py 1873-1921).
A port argument of 0 models a falsy Python port value: `if not local_port:`
replaces it by the other port, then likewise for runtime_port.  For direction
"-L" the key is host :: -L :: local_port :: runtime_port, for "-R" it is
host :: -R :: runtime_port :: local_port; any other direction raises
ValueError (modelled as the error branch). -/
def create_process_key_for_port_exposure (host : String) (direction : String)
    (local_port runtime_port : Nat) : Except String String :=
  let local_port := if local_port = 0 then runtime_port else local_port
  let runtime_port := if runtime_port = 0 then local_port else runtime_port
  if direction = PORT_FROM_RUNTIME then
    Except.ok (host ++ PROCESS_KEY_DELIMITER ++ PORT_FROM_RUNTIME ++ PROCESS_KEY_DELIMITER
      ++ toString local_port ++ PROCESS_KEY_DELIMITER ++ toString runtime_port)
  else if direction = PORT_TO_RUNTIME then
    Except.ok (host ++ PROCESS_KEY_DELIMITER ++ PORT_TO_RUNTIME ++ PROCESS_KEY_DELIMITER
      ++ toString runtime_port ++ PROCESS_KEY_DELIMITER ++ toString local_port)
  else
    Except.error (direction ++ " is not a supported runtime process prefix type")

/-- Splitting a character list on the two-character delimiter "::" with
Python str.split semantics: scan left to right, a match ends the current
piece and is consumed. -/
def split_on_colon_colon : List Char → List Char → List (List Char)
  | ':' :: ':' :: rest, acc => acc.reverse :: split_on_colon_colon rest []
  | c :: rest, acc => split_on_colon_colon rest (c :: acc)
  | [], acc => [acc.reverse]

/-- process_key.split(Runtime._PROCESS_KEY_DELIMITER): split on the "::"
delimiter constant. -/
def split_on_process_key_delimiter (s : String) : List String :=
  (split_on_colon_colon s.data []).map (fun cs => String.mk cs)

/-- Runtime.is_runtime_task_process (runtimes.py 1177-1191): splits the key on
"::" and compares component 1 with "task".  Python would raise IndexError on a
key with fewer than two components; such keys are never produced by the
registry, and the model returns false for them. -/
def is_runtime_task_process (process_key : String) : Bool :=
  (split_on_process_key_delimiter process_key)[1]? == some TASK_PROCESS_KEY_KIND

/-! ## Process registry (Runtime._processes, a dict from process key to the
child process; processes are modelled by an id plus an aliveness flag where
needed) -/

/-- One registered child process: its registry key and whether it is alive. -/
structure Proc where
  key : String
  alive : Bool
deriving DecidableEq

/-- Runtime.task_processes (runtimes.py 971-982): all registered processes
whose key classifies them as task processes.  No aliveness filter is applied
in the source. -/
def task_processes (procs : List Proc) : List Proc :=
  procs.filter (fun p => is_runtime_task_process p.key)

/-- Runtime.alive_task_process_count (runtimes.py 1131-1138):
len(self.task_processes). -/
def alive_task_process_count (procs : List Proc) : Nat :=
  (task_processes procs).length

/-- Modelled from the spec words of C3 for comparison with the source
definition: the number of task processes that are still alive. -/
def spec_alive_task_process_count (procs : List Proc) : Nat :=
  ((task_processes procs).filter (fun p => p.alive)).length

/-- A Runtime as relevant to least-busy dispatch: its host and its process
registry contents. -/
structure RuntimeProcs where
  host : String
  processes : List Proc
deriving DecidableEq

/-- The loop body of RuntimeGroup._get_least_busy_runtime (runtime_mgmt.py
787-797): final_rt starts as None, the first runtime fills it, and a later
runtime replaces it only when its alive_task_process_count is strictly
smaller. -/
def get_least_busy_runtime_loop : Option RuntimeProcs → List RuntimeProcs → Option RuntimeProcs
  | final_rt, [] => final_rt
  | none, r :: rest => get_least_busy_runtime_loop (some r) rest
  | some f, r :: rest =>
      if alive_task_process_count r.processes < alive_task_process_count f.processes then
        get_least_busy_runtime_loop (some r) rest
      else
        get_least_busy_runtime_loop (some f) rest

/-- RuntimeGroup._get_least_busy_runtime (runtime_mgmt.py 787-797). -/
def get_least_busy_runtime (runtimes : List RuntimeProcs) : Option RuntimeProcs :=
  get_least_busy_runtime_loop none runtimes

/-! ## RuntimeTask state relevant to broadcast (runtimes.py 66-145) -/

/-- The RuntimeTask fields that RuntimeTask.__deepcopy__ reads or writes:
its name, its _copy_index counter and its omit_on_join flag. -/
structure RTask where
  name : String
  copy_index : Nat
  omit_on_join : Bool
deriving DecidableEq

/-- RuntimeTask.__deepcopy__ (runtimes.py 111-145): increments the original
task's _copy_index, builds a fresh task named name-<copy_index> with a zero
counter of its own, and copies the omit_on_join flag.  Returns the mutated
original together with the copy. -/
def runtime_task_deepcopy (t : RTask) : RTask × RTask :=
  let t := { t with copy_index := t.copy_index + 1 }
  (t, { name := t.name ++ "-" ++ toString t.copy_index, copy_index := 0,
        omit_on_join := t.omit_on_join })

/-- One element of the list returned by a broadcast: either the very task
object the caller passed in, or a freshly created deep copy. -/
inductive Dispatched where
  | original : Dispatched
  | copy : RTask → Dispatched
deriving DecidableEq

/-- The broadcast loop of RuntimeGroup.execute_task (runtime_mgmt.py 519-537).
The Boolean argument mirrors the local variable needs_to_create_copy, which
the source initialises to False and never assigns again: each iteration reads
it, dispatches either the original task or a deep copy accordingly, and passes
it on unchanged.  Returns the dispatched list in group iteration order and the
final state of the caller's task object. -/
def broadcast_loop : List String → RTask → Bool → List Dispatched × RTask
  | [], t, _ => ([], t)
  | _ :: rest, t, needs_to_create_copy =>
      if needs_to_create_copy then
        let tc := runtime_task_deepcopy t
        let r := broadcast_loop rest tc.1 needs_to_create_copy
        (Dispatched.copy tc.2 :: r.1, r.2)
      else
        let r := broadcast_loop rest t needs_to_create_copy
        (Dispatched.original :: r.1, r.2)

/-- RuntimeGroup.execute_task with broadcast=True (runtime_mgmt.py 519-537):
runs the loop over all runtimes of the group with needs_to_create_copy
initialised to False. -/
def execute_task_broadcast (runtimes : List String) (t : RTask) : List Dispatched × RTask :=
  broadcast_loop runtimes t false

/-! ## omit_on_join flag flow (runtime_mgmt.py 508-547, runtimes.py 1297-1348) -/

/-- The RuntimeTask fields written by dispatch that RuntimeTask.join reads:
the omit_on_join flag and whether a child process handle is set. -/
structure TaskFlags where
  omit_on_join : Bool
  has_process : Bool
deriving DecidableEq

/-- Runtime.execute_task (runtimes.py 1297-1348) restricted to the two fields
above.  Signature and defaults as in the source:
execute_task(task, execute_async=True, omit_on_join=False, debug=False).
In the asynchronous branch the source assigns task.omit_on_join =
omit_on_join and stores the spawned process handle on the task; the
synchronous branch touches neither field. -/
def runtime_execute_task (f : TaskFlags) (execute_async omit_on_join debug : Bool) : TaskFlags :=
  if execute_async then
    { omit_on_join := omit_on_join, has_process := true }
  else
    f

/-- RuntimeGroup.execute_task on a single runtime (runtime_mgmt.py 508-547):
line 517 assigns task.omit_on_join = omit_on_join, then the dispatch calls
runtime.execute_task(current_task, execute_async, debug) — the group's debug
argument is passed positionally into the runtime's omit_on_join parameter,
and the runtime's debug parameter keeps its default False. -/
def group_execute_task_single (f : TaskFlags) (execute_async omit_on_join debug : Bool) :
    TaskFlags :=
  let f := { f with omit_on_join := omit_on_join }
  runtime_execute_task f execute_async debug false

/-- RuntimeTask.join (runtimes.py 572-595): the join is skipped exactly when
omit_on_join is set and a process handle exists; RuntimeGroup.join
(runtime_mgmt.py 590-596) calls this on every owned task. -/
def task_join_skipped (f : TaskFlags) : Bool :=
  f.omit_on_join && f.has_process

/-! ## Task steps and execution (runtimes.py 461-675, 753 ff.) -/

/-- RuntimeTask._TaskStep: the tagged step variants.  A RUN_FUNCTION step
carries the ordered elementary sub-steps that run_function generated for it. -/
inductive TaskStep where
  | run_command (command : String)
  | send_file (local_path : String) (remote_path : Option String)
  | get_file (remote_path : String) (local_path : Option String)
  | run_function (function_steps : List TaskStep)

/-- The result of connection.run for one shell command: the exit status and
the captured stdout. -/
structure RunResult where
  exited : Int
  stdout : String
deriving DecidableEq

/-- exceptions.TaskExecutionError (exceptions.py 27-56).  The source carries
the live task object; it is represented here by its name and step list. -/
structure TaskExecutionError where
  task_step_index : Nat
  task_name : String
  task_steps : List TaskStep
  host : String
  execution_log_file_path : String
  output : String

/-- RuntimeTask._execute_run_command_step (runtimes.py 623-675): run the
command over the connection (the connection is an oracle from the command to
its RunResult), append the captured stdout to the execution log, and raise
TaskExecutionError carrying the step index, the task, the host, the execution
log file path and the output exactly when the exit status is non-zero. -/
def execute_run_command_step (conn : String → RunResult)
    (task_name : String) (task_steps : List TaskStep) (host log_path : String)
    (command : String) (task_step_index : Nat) (log : List String) :
    List String × Option TaskExecutionError :=
  let result := conn command
  let log := log ++ [result.stdout]
  if result.exited ≠ 0 then
    (log, some ⟨task_step_index, task_name, task_steps, host, log_path, result.stdout⟩)
  else
    (log, none)

/-- The inner loop of RuntimeTask.execute over the sub-steps of a RUN_FUNCTION
step (runtimes.py 542-561): every sub-step runs with the unchanged outer step
index; only the three elementary variants are matched, so a nested
run_function sub-step would be ignored (run_function never generates one).
File transfers append nothing to the execution log and their failures
(OSError) are outside TaskExecutionError. -/
def execute_function_steps (conn : String → RunResult)
    (task_name : String) (task_steps : List TaskStep) (host log_path : String) :
    List TaskStep → Nat → List String → List String × Option TaskExecutionError
  | [], _, log => (log, none)
  | step :: rest, idx, log =>
      match step with
      | TaskStep.run_command cmd =>
          let res := execute_run_command_step conn task_name task_steps host log_path cmd idx log
          match res.2 with
          | none => execute_function_steps conn task_name task_steps host log_path rest idx res.1
          | some e => (res.1, some e)
      | _ => execute_function_steps conn task_name task_steps host log_path rest idx log

/-- The step walk of RuntimeTask.execute (runtimes.py 509-570).  The step
index advances after every elementary step; a RUN_FUNCTION step executes its
sub-steps at the current index and leaves the index unchanged (lines
528-530 increment only when the type differs from RUN_FUNCTION). -/
def execute_task_steps (conn : String → RunResult)
    (task_name : String) (task_steps : List TaskStep) (host log_path : String) :
    List TaskStep → Nat → List String → List String × Option TaskExecutionError
  | [], _, log => (log, none)
  | step :: rest, idx, log =>
      match step with
      | TaskStep.run_command cmd =>
          let res := execute_run_command_step conn task_name task_steps host log_path cmd idx log
          match res.2 with
          | none => execute_task_steps conn task_name task_steps host log_path rest (idx + 1) res.1
          | some e => (res.1, some e)
      | TaskStep.send_file _ _ =>
          execute_task_steps conn task_name task_steps host log_path rest (idx + 1) log
      | TaskStep.get_file _ _ =>
          execute_task_steps conn task_name task_steps host log_path rest (idx + 1) log
      | TaskStep.run_function fsteps =>
          let res := execute_function_steps conn task_name task_steps host log_path fsteps idx log
          match res.2 with
          | none => execute_task_steps conn task_name task_steps host log_path rest idx res.1
          | some e => (res.1, some e)

/-- RuntimeTask.execute (runtimes.py 461-570) for a task, starting the step
index at 0 with an empty execution log. -/
def runtime_task_execute (conn : String → RunResult)
    (task_name : String) (host log_path : String) (task_steps : List TaskStep) :
    List String × Option TaskExecutionError :=
  execute_task_steps conn task_name task_steps host log_path task_steps 0 []

/-! ## HyperoptCluster dbpath handling (cluster/hyperopt_cluster.py 276-329) -/

/-- Python truthiness of an optional string: None and the empty string are
falsy. -/
def py_truthy_str : Option String → Bool
  | none => false
  | some s => !(s == "")

/-- Whether s starts with p, on the underlying character lists. -/
def str_starts_with (s p : String) : Bool := p.data.isPrefixOf s.data

/-- Whether s ends with p, on the underlying character lists. -/
def str_ends_with (s p : String) : Bool := p.data.reverse.isPrefixOf s.data.reverse

/-- posixpath.join for two components as used with a plain directory name. -/
def os_path_join (a b : String) : String :=
  if str_starts_with b "/" then b
  else if a = "" then b
  else if str_ends_with a "/" then a ++ b
  else a ++ "/" ++ b

/-- The dbpath branch of HyperoptCluster.__init__ (hyperopt_cluster.py
308-319): `if dbpath:` sets the launcher's dbpath to
os.path.join(Environment.main_directory, "mongodb") and creates that
directory (an already existing directory is tolerated); the else branch
assigns the launcher's dbpath the constructor argument unchanged.  Returns
the launcher's dbpath and the list of directories created. -/
def hyperopt_cluster_init_dbpath (main_directory : String) (dbpath : Option String) :
    Option String × List String :=
  if py_truthy_str dbpath then
    let p := os_path_join main_directory "mongodb"
    (some p, [p])
  else
    (dbpath, [])

/-! ## Runtime working directory and environment variables
(runtimes.py 949-969, 1153-1175, 1320-1325, 1456-1468) -/

/-- The Runtime fields read and written by the working-directory and
environment operations. -/
structure RuntimeEnvState where
  working_dir : Option String
  env_variables : List (String × String)
deriving DecidableEq

/-- The public operations of claim C7 on a Runtime.  exec_task carries the
name of the temporary directory that _create_working_dir_if_not_exists would
create when no working directory exists yet. -/
inductive EnvOp where
  | set_working_dir (wd : String)
  | set_env_variables (d : List (String × String))
  | add_env_variables (d : List (String × String))
  | exec_task (tmp : String)
deriving DecidableEq

/-- Whether an operation hands the Runtime an environment dict that itself
contains the WORKING_DIR key. -/
def env_op_overrides_working_dir : EnvOp → Bool
  | EnvOp.set_env_variables d => dict_mem d WORKING_DIR_ENV_VAR_NAME
  | EnvOp.add_env_variables d => dict_mem d WORKING_DIR_ENV_VAR_NAME
  | _ => false

/-- One step of the Runtime state machine; the Boolean reports whether the
operation raised (only the assert in the env_variables setter can).

set_working_dir: the working_dir setter (runtimes.py 949-969) stores the
path (directory creation on the host is assumed to succeed) and updates
env[WORKING_DIR].

set_env_variables: the env_variables setter (runtimes.py 1153-1167) replaces
the dict; when the new dict lacks the WORKING_DIR key it asserts that the
working directory is truthy — the dict is already replaced when the assert
fires — and then re-adds WORKING_DIR mapped to the working directory.

add_env_variables (runtimes.py 1169-1175): dict update.

exec_task: Runtime.execute_task first calls
_create_working_dir_if_not_exists (runtimes.py 1320, 1456-1468), which runs
the working_dir setter on a fresh temporary directory when none is set; the
runtime's own env dict is otherwise untouched. -/
def apply_env_op (s : RuntimeEnvState) : EnvOp → RuntimeEnvState × Bool
  | EnvOp.set_working_dir wd =>
      ({ working_dir := some wd,
         env_variables := dict_set s.env_variables WORKING_DIR_ENV_VAR_NAME wd }, false)
  | EnvOp.set_env_variables d =>
      if dict_mem d WORKING_DIR_ENV_VAR_NAME then
        ({ s with env_variables := d }, false)
      else
        match s.working_dir with
        | some wd =>
            if wd = "" then
              ({ s with env_variables := d }, true)
            else
              ({ s with env_variables := dict_set d WORKING_DIR_ENV_VAR_NAME wd }, false)
        | none => ({ s with env_variables := d }, true)
  | EnvOp.add_env_variables d =>
      ({ s with env_variables := dict_update s.env_variables d }, false)
  | EnvOp.exec_task tmp =>
      if py_truthy_str s.working_dir then
        (s, false)
      else
        ({ working_dir := some tmp,
           env_variables := dict_set s.env_variables WORKING_DIR_ENV_VAR_NAME tmp }, false)

/-- Run a sequence of operations from a state; a raised exception propagates,
aborting the remaining operations. -/
def run_env_ops (s : RuntimeEnvState) : List EnvOp → RuntimeEnvState
  | [] => s
  | op :: rest =>
      let r := apply_env_op s op
      if r.2 then r.1 else run_env_ops r.1 rest

/-- The Runtime constructor state (runtimes.py 861-925): no working directory,
empty environment dict. -/
def runtime_initial_env_state : RuntimeEnvState :=
  { working_dir := none, env_variables := [] }

/-- The invariant of claim C7: whenever the working directory is set and
non-empty, env[WORKING_DIR] equals it. -/
def env_invariant (s : RuntimeEnvState) : Prop :=
  ∀ wd, s.working_dir = some wd → wd ≠ "" →
    dict_lookup s.env_variables WORKING_DIR_ENV_VAR_NAME = some wd

/-! ## Function registration and function returns (runtimes.py 179-210,
310-459, 613-621) -/

/-- The RuntimeTask state touched by run_function that function_returns later
reads: the program-global pickle-file counter (RuntimeTask._function_index)
and the task's _function_return_pkl_paths list. -/
structure FnRegState where
  function_index : Nat
  return_pkl_paths : List String
deriving DecidableEq

/-- RuntimeTask._create_file_name (runtimes.py 613-621): increments the
program-global counter and builds <function_name><index>.pkl (the prefix
falls back to "func" for a falsy function name).  Returns the file name and
the new counter. -/
def create_file_name (function_index : Nat) (function_name : String) : String × Nat :=
  let file_stem := if function_name = "" then "func" else function_name
  (file_stem ++ toString (function_index + 1) ++ "." ++ "pkl", function_index + 1)

/-- The effect of one RuntimeTask.run_function call (runtimes.py 310-459) on
the state above: generate the remote file name from the counter, derive the
manager-local return pickle path <temp_dir>/return_<remote_file_name>, and
append it to _function_return_pkl_paths.  Exactly one path is appended per
call. -/
def run_function_register (s : FnRegState) (temp_dir function_name : String) : FnRegState :=
  let fn := create_file_name s.function_index function_name
  let local_return_file_name := "return_" ++ fn.1
  { function_index := fn.2,
    return_pkl_paths := s.return_pkl_paths ++ [temp_dir ++ "/" ++ local_return_file_name] }

/-- Register a whole sequence of run_function calls in order. -/
def run_function_register_all (s : FnRegState) (temp_dir : String)
    (function_names : List String) : FnRegState :=
  function_names.foldl (fun acc n => run_function_register acc temp_dir n) s

/-- The warning text emitted for a missing return pickle file
(runtimes.py 200-205). -/
def missing_return_warning (path : String) : String :=
  "Pickle file " ++ path ++ " with function return data does not exist. Please check the logs."

/-- RuntimeTask.function_returns (runtimes.py 179-210) after the initial
join: walk _function_return_pkl_paths in order; a path whose file is missing
yields the placeholder none and emits a warning, a present file yields its
unpickled value.  The filesystem plus unpickler is the oracle fs.  Returns
the yielded values and the emitted warnings; no error is ever raised. -/
def function_returns {α : Type} (fs : String → Option α) :
    List String → List (Option α) × List String
  | [] => ([], [])
  | p :: rest =>
      let r := function_returns fs rest
      match fs p with
      | none => (none :: r.1, missing_return_warning p :: r.2)
      | some v => (some v :: r.1, r.2)

/-! ## Group port discovery (runtime_mgmt.py 604-676, _utils.py 13-32) -/

/-- RuntimeGroup.has_free_port without excluded hosts (runtime_mgmt.py
646-676): the port must be free on every runtime of the group; freeOn is the
per-runtime port probe. -/
def group_has_free_port (freeOn : String → Nat → Bool) (hosts : List String) (port : Nat) :
    Bool :=
  hosts.all (fun h => freeOn h port)

/-- The scan loop of RuntimeGroup.get_free_port with the default
enforce_check_on_localhost=False (runtime_mgmt.py 604-644): the first port of
the list that is free in the whole group is returned; an empty or exhausted
list raises NoPortsLeftError (the error case). -/
def get_free_port (freeOn : String → Nat → Bool) (hosts : List String) :
    List Nat → Except Unit Nat
  | [] => Except.error ()
  | p :: rest =>
      if group_has_free_port freeOn hosts p then Except.ok p
      else get_free_port freeOn hosts rest

/-- The loop of _utils.get_remaining_ports: while skip is set every port is
dropped, and skip is cleared on the port equal to last_used_port (which is
itself dropped by the continue); afterwards every port is kept. -/
def get_remaining_ports_loop (last_used_port : Nat) : List Nat → Bool → List Nat
  | [], _ => []
  | p :: rest, skip =>
      if skip then
        get_remaining_ports_loop last_used_port rest (if p = last_used_port then false else true)
      else
        p :: get_remaining_ports_loop last_used_port rest false

/-- _utils.get_remaining_ports (_utils.py 13-32). -/
def get_remaining_ports (ports : List Nat) (last_used_port : Nat) : List Nat :=
  get_remaining_ports_loop last_used_port ports true

/-! ## Process registry operations (runtimes.py 1333-1348, 1590-1604,
1630-1642) -/

/-- The registration performed by the asynchronous branch of
Runtime.execute_task (runtimes.py 1333-1348):
self._processes.update({key: process}) under the task-execution process key.
Processes are identified by an abstract id. -/
def register_task_process (host : String) (reg : List (String × Nat))
    (task_name : String) (pid : Nat) : List (String × Nat) :=
  dict_set reg (create_process_key_for_task_execution host task_name) pid

/-- Runtime.get_process (runtimes.py 1590-1604): unknown keys raise
ValueError (the error case), otherwise the registered process is returned. -/
def get_process (reg : List (String × Nat)) (key : String) : Except String Nat :=
  match dict_lookup reg key with
  | none => Except.error "Unknown process key."
  | some p => Except.ok p

/-- Runtime.stop_process (runtimes.py 1630-1642): unknown keys raise
ValueError, otherwise terminate() is invoked on the registered process; the
ok value is the id of the process that gets terminated. -/
def stop_process (reg : List (String × Nat)) (key : String) : Except String Nat :=
  match dict_lookup reg key with
  | none => Except.error "Unknown process key."
  | some p => Except.ok p

/-! ## Helper lemmas about the dict model -/

theorem dict_lookup_dict_set {β : Type} (m : List (String × β)) (k k₂ : String) (v : β) :
    dict_lookup (dict_set m k v) k₂ = if k₂ = k then some v else dict_lookup m k₂ := by
  induction m with
  | nil =>
      by_cases h : k₂ = k
      · subst h; simp [dict_set, dict_lookup]
      · simp [dict_set, dict_lookup, h, Ne.symm h]
  | cons hd tl ih =>
      obtain ⟨a, b⟩ := hd
      by_cases ha : a = k
      · subst ha
        by_cases h : k₂ = a
        · subst h; simp [dict_set, dict_lookup]
        · simp [dict_set, dict_lookup, h, Ne.symm h]
      · by_cases h : k₂ = a
        · subst h
          simp [dict_set, dict_lookup, ha, Ne.symm ha]
        · simp [dict_set, dict_lookup, ha, h, Ne.symm h, ih]

theorem dict_set_dict_set {β : Type} (m : List (String × β)) (k : String) (v w : β) :
    dict_set (dict_set m k v) k w = dict_set m k w := by
  induction m with
  | nil => simp [dict_set]
  | cons hd tl ih =>
      obtain ⟨a, b⟩ := hd
      by_cases ha : a = k <;> simp [dict_set, ha, ih]

theorem dict_mem_cons {β : Type} (a : String) (b : β) (tl : List (String × β)) (k : String) :
    dict_mem ((a, b) :: tl) k = if a = k then true else dict_mem tl k := by
  by_cases h : a = k <;> simp [dict_mem, dict_lookup, h]

theorem dict_lookup_dict_update_not_mem {β : Type} (m d : List (String × β)) (k : String)
    (h : dict_mem d k = false) : dict_lookup (dict_update m d) k = dict_lookup m k := by
  induction d generalizing m with
  | nil => simp [dict_update]
  | cons hd tl ih =>
      obtain ⟨a, b⟩ := hd
      rw [dict_mem_cons] at h
      by_cases ha : a = k
      · simp [ha] at h
      · simp only [ha, if_false] at h
        have step : dict_update m ((a, b) :: tl) = dict_update (dict_set m a b) tl := by
          simp [dict_update]
        rw [step, ih _ h, dict_lookup_dict_set]
        simp [Ne.symm ha]

/-! ## Claim theorems -/

/-- C1 (code bug): in RuntimeGroup.execute_task with broadcast=True the local
variable needs_to_create_copy is initialised to False and never assigned
again, so the deep-copy branch is dead: the caller's original task object is
dispatched to and appended for every one of the N runtimes (the returned list
is N references to the original, and its name and copy counter never change),
instead of the original going only to the first runtime and deep copies named
name-1 … name-(N-1) to the rest as the docstring of the method and the claim
state. -/
theorem broadcast_dispatches_original_to_every_runtime (runtimes : List String) (t : RTask) :
    (execute_task_broadcast runtimes t).1 =
      List.replicate runtimes.length Dispatched.original ∧
    (execute_task_broadcast runtimes t).2 = t := by
  unfold execute_task_broadcast
  induction runtimes with
  | nil => exact ⟨rfl, rfl⟩
  | cons h rest ih => simpa [broadcast_loop, List.replicate] using ih

/-- C2 (code bug): dispatching through RuntimeGroup.execute_task with
execute_async=True, omit_on_join=True and debug left at its default False
first sets the task's omit_on_join flag to True (runtime_mgmt.py line 517)
but then calls runtime.execute_task(current_task, execute_async, debug),
whose third positional parameter is omit_on_join — so the asynchronous branch
of Runtime.execute_task overwrites the flag with the debug value False.
After dispatch the flag is False and RuntimeGroup.join does not skip the
task, contrary to the claim. -/
theorem omit_on_join_flag_cleared_by_async_dispatch (f : TaskFlags) :
    (group_execute_task_single f true true false).omit_on_join = false ∧
    task_join_skipped (group_execute_task_single f true true false) = false := by
  exact ⟨rfl, rfl⟩

/-- C4 counterexample: for host "h", runtime port 1 and local port 2, the
-L process key produced by the source is "h::-L::2::1" — third component the
local port — and not "h::-L::1::2" as the claim predicts (runtime port
third). -/
theorem port_exposure_key_L_order_counterexample :
    create_process_key_for_port_exposure "h" PORT_FROM_RUNTIME 2 1 =
      Except.ok "h::-L::2::1" ∧
    ("h::-L::2::1" : String) ≠ "h::-L::1::2" := by
  exact ⟨rfl, by decide⟩

/-- C4 amended: for every host h, task name n and non-zero ports rp (runtime)
and lp (local), the task process key is h :: "task" :: n, the -R key is
h :: -R :: rp :: lp as claimed, and the -L key is h :: -L :: lp :: rp — the
third component of an -L key is the local port and the fourth the runtime
port, the opposite order from the claim. -/
theorem process_key_structure (h n : String) (rp lp : Nat)
    (hrp : rp ≠ 0) (hlp : lp ≠ 0) :
    create_process_key_for_task_execution h n =
      h ++ "::" ++ "task" ++ "::" ++ n ∧
    create_process_key_for_port_exposure h PORT_FROM_RUNTIME lp rp =
      Except.ok (h ++ "::" ++ "-L" ++ "::" ++ toString lp ++ "::" ++ toString rp) ∧
    create_process_key_for_port_exposure h PORT_TO_RUNTIME lp rp =
      Except.ok (h ++ "::" ++ "-R" ++ "::" ++ toString rp ++ "::" ++ toString lp) := by
  refine ⟨rfl, ?_, ?_⟩ <;>
    simp [create_process_key_for_port_exposure, hrp, hlp,
      PORT_FROM_RUNTIME, PORT_TO_RUNTIME, PROCESS_KEY_DELIMITER]

/-- C4 amended witness at host "host1", task "mytask", runtime port 8080,
local port 9090. -/
theorem process_key_structure_witness :
    (8080 : Nat) ≠ 0 ∧ (9090 : Nat) ≠ 0 ∧
    (create_process_key_for_task_execution "host1" "mytask" =
        "host1" ++ "::" ++ "task" ++ "::" ++ "mytask" ∧
      create_process_key_for_port_exposure "host1" PORT_FROM_RUNTIME 9090 8080 =
        Except.ok ("host1" ++ "::" ++ "-L" ++ "::" ++ toString (9090 : Nat) ++ "::"
          ++ toString (8080 : Nat)) ∧
      create_process_key_for_port_exposure "host1" PORT_TO_RUNTIME 9090 8080 =
        Except.ok ("host1" ++ "::" ++ "-R" ++ "::" ++ toString (8080 : Nat) ++ "::"
          ++ toString (9090 : Nat))) :=
  ⟨by decide, by decide,
    process_key_structure "host1" "mytask" 8080 9090 (by decide) (by decide)⟩

/-- C6 (code bug): the dbpath branch of HyperoptCluster.__init__ is inverted.
With the main directory "/lazycluster": when dbpath is omitted (None) the
launcher's dbpath stays None and no directory is created, although the claim
and the constructor docstring promise that <main>/mongodb is created and
used; when dbpath "/custom/db" is provided it is ignored and replaced by
"/lazycluster/mongodb" (which is created), although the claim says a provided
path is used as-is. -/
theorem hyperopt_dbpath_branch_inverted :
    hyperopt_cluster_init_dbpath "/lazycluster" none = (none, []) ∧
    hyperopt_cluster_init_dbpath "/lazycluster" (some "/custom/db") =
      (some "/lazycluster/mongodb", ["/lazycluster/mongodb"]) := by
  exact ⟨rfl, by decide⟩

/-- get_process returns ok p exactly when the registry maps the key to p. -/
theorem get_process_ok_iff (reg : List (String × Nat)) (key : String) (p : Nat) :
    get_process reg key = Except.ok p ↔ dict_lookup reg key = some p := by
  unfold get_process
  cases h : dict_lookup reg key <;> simp

/-- stop_process terminates process p exactly when the registry maps the key
to p. -/
theorem stop_process_ok_iff (reg : List (String × Nat)) (key : String) (p : Nat) :
    stop_process reg key = Except.ok p ↔ dict_lookup reg key = some p := by
  unfold stop_process
  cases h : dict_lookup reg key <;> simp

/-- C3 counterexample: a group of runtime "a" (two registered task processes,
both dead) and runtime "b" (one alive task process).  The runtime with the
fewest alive task processes is "a" (0 alive versus 1), but the source selects
"b", because alive_task_process_count counts every registered task process
regardless of aliveness. -/
theorem least_busy_counts_dead_task_processes :
    get_least_busy_runtime
        [⟨"a", [⟨"a::task::t1", false⟩, ⟨"a::task::t2", false⟩]⟩,
         ⟨"b", [⟨"b::task::t3", true⟩]⟩] =
      some ⟨"b", [⟨"b::task::t3", true⟩]⟩ ∧
    spec_alive_task_process_count [⟨"a::task::t1", false⟩, ⟨"a::task::t2", false⟩] = 0 ∧
    spec_alive_task_process_count [⟨"b::task::t3", true⟩] = 1 := by
  decide

/-- The selection of RuntimeGroup._get_least_busy_runtime once final_rt is
filled: the result is the first list element attaining the minimal
alive_task_process_count among the current candidate and the remaining
runtimes. -/
theorem get_least_busy_runtime_loop_spec (rest : List RuntimeProcs) (f : RuntimeProcs) :
    ∃ res l₁ l₂,
      get_least_busy_runtime_loop (some f) rest = some res ∧
      f :: rest = l₁ ++ res :: l₂ ∧
      (∀ q ∈ l₁,
        alive_task_process_count res.processes < alive_task_process_count q.processes) ∧
      (∀ q ∈ f :: rest,
        alive_task_process_count res.processes ≤ alive_task_process_count q.processes) := by
  induction rest generalizing f with
  | nil =>
      exact ⟨f, [], [], rfl, rfl, by simp, by simp⟩
  | cons r rest ih =>
      by_cases h : alive_task_process_count r.processes < alive_task_process_count f.processes
      · obtain ⟨res, l₁, l₂, hloop, hdec, hlt, hle⟩ := ih r
        refine ⟨res, f :: l₁, l₂, ?_, ?_, ?_, ?_⟩
        · simpa [get_least_busy_runtime_loop, h] using hloop
        · simpa using congrArg (List.cons f) hdec
        · intro q hq
          rcases List.mem_cons.mp hq with rfl | hq
          · exact lt_of_le_of_lt (hle r (by simp)) h
          · exact hlt q hq
        · intro q hq
          rcases List.mem_cons.mp hq with rfl | hq
          · exact le_of_lt (lt_of_le_of_lt (hle r (by simp)) h)
          · exact hle q hq
      · obtain ⟨res, l₁, l₂, hloop, hdec, hlt, hle⟩ := ih f
        cases l₁ with
        | nil =>
            obtain ⟨hres, hl₂⟩ : f = res ∧ rest = l₂ := by
              simpa using hdec
            refine ⟨res, [], r :: l₂, ?_, ?_, by simp, ?_⟩
            · simpa [get_least_busy_runtime_loop, h] using hloop
            · simp [hres, hl₂]
            · intro q hq
              rcases List.mem_cons.mp hq with rfl | hq
              · exact hle q (by simp)
              · rcases List.mem_cons.mp hq with rfl | hq
                · exact le_trans (hle f (by simp)) (not_lt.mp h)
                · exact hle q (List.mem_cons_of_mem f hq)
        | cons x l₁' =>
            obtain ⟨hx, hrest⟩ : f = x ∧ rest = l₁' ++ res :: l₂ := by
              simpa using hdec
            refine ⟨res, f :: r :: l₁', l₂, ?_, ?_, ?_, ?_⟩
            · simpa [get_least_busy_runtime_loop, h] using hloop
            · simp [hrest]
            · intro q hq
              rcases List.mem_cons.mp hq with rfl | hq
              · exact hlt q (hx ▸ List.mem_cons_self x l₁')
              · rcases List.mem_cons.mp hq with rfl | hq
                · exact lt_of_lt_of_le (hlt x (List.mem_cons_self x l₁')) (hx ▸ not_lt.mp h)
                · exact hlt q (List.mem_cons_of_mem x hq)
            · intro q hq
              rcases List.mem_cons.mp hq with rfl | hq
              · exact hle q (by simp)
              · rcases List.mem_cons.mp hq with rfl | hq
                · exact le_trans (hle f (by simp)) (not_lt.mp h)
                · exact hle q (List.mem_cons_of_mem f hq)

/-- C3 amended: with broadcast=False and no host given, the task goes to the
runtime returned by _get_least_busy_runtime, which is the first runtime of
the group attaining the minimal alive_task_process_count — the number of
REGISTERED task processes (dead ones included), not the number of alive ones
as the claim words it: the result minimises that count over the whole group
and every runtime earlier in iteration order has a strictly larger count. -/
theorem least_busy_picks_fewest_registered_task_processes (runtimes : List RuntimeProcs)
    (hne : runtimes ≠ []) :
    ∃ res l₁ l₂,
      get_least_busy_runtime runtimes = some res ∧
      runtimes = l₁ ++ res :: l₂ ∧
      (∀ q ∈ l₁,
        alive_task_process_count res.processes < alive_task_process_count q.processes) ∧
      (∀ q ∈ runtimes,
        alive_task_process_count res.processes ≤ alive_task_process_count q.processes) := by
  cases runtimes with
  | nil => exact absurd rfl hne
  | cons f rest =>
      simpa [get_least_busy_runtime, get_least_busy_runtime_loop] using
        get_least_busy_runtime_loop_spec rest f

/-- C3 amended witness: a concrete two-runtime group. -/
theorem least_busy_picks_fewest_registered_witness :
    ([⟨"a", [⟨"a::task::t1", false⟩]⟩, ⟨"b", []⟩] : List RuntimeProcs) ≠ [] ∧
    ∃ res l₁ l₂,
      get_least_busy_runtime
          [⟨"a", [⟨"a::task::t1", false⟩]⟩, ⟨"b", []⟩] = some res ∧
      ([⟨"a", [⟨"a::task::t1", false⟩]⟩, ⟨"b", []⟩] : List RuntimeProcs) =
        l₁ ++ res :: l₂ ∧
      (∀ q ∈ l₁,
        alive_task_process_count res.processes < alive_task_process_count q.processes) ∧
      (∀ q ∈ ([⟨"a", [⟨"a::task::t1", false⟩]⟩, ⟨"b", []⟩] : List RuntimeProcs),
        alive_task_process_count res.processes ≤ alive_task_process_count q.processes) :=
  ⟨by decide, least_busy_picks_fewest_registered_task_processes _ (by decide)⟩

/-- C10: executing two RuntimeTasks with equal names asynchronously on the
same Runtime produces the identical process key, so the second
self._processes.update overwrites the registry entry: get_process on that key
returns the second process, and the first process — assumed distinct from the
second and not registered under any other key — is neither retrievable via
get_process (no key maps to it) nor stoppable via stop_process (no call can
ever return it as the terminated process), although nothing terminates it. -/
theorem duplicate_task_name_overwrites_registry (host name : String)
    (reg : List (String × Nat)) (pid₁ pid₂ : Nat)
    (hneq : pid₁ ≠ pid₂) (hfresh : ∀ k, dict_lookup reg k ≠ some pid₁) :
    get_process
        (register_task_process host (register_task_process host reg name pid₁) name pid₂)
        (create_process_key_for_task_execution host name) = Except.ok pid₂ ∧
    (∀ k, dict_lookup
        (register_task_process host (register_task_process host reg name pid₁) name pid₂)
        k ≠ some pid₁) ∧
    (∀ k, stop_process
        (register_task_process host (register_task_process host reg name pid₁) name pid₂)
        k ≠ Except.ok pid₁) := by
  have hset : register_task_process host (register_task_process host reg name pid₁) name pid₂
      = dict_set reg (create_process_key_for_task_execution host name) pid₂ := by
    simp [register_task_process, dict_set_dict_set]
  have hlook : ∀ k, dict_lookup
      (register_task_process host (register_task_process host reg name pid₁) name pid₂) k
      ≠ some pid₁ := by
    intro k
    rw [hset, dict_lookup_dict_set]
    by_cases h : k = create_process_key_for_task_execution host name
    · simp only [h, if_pos rfl]
      exact fun hh => hneq (Option.some_injective _ hh).symm
    · simp only [if_neg h]
      exact hfresh k
  refine ⟨?_, hlook, ?_⟩
  · rw [hset]
    simp [get_process, dict_lookup_dict_set]
  · intro k hp
    exact hlook k ((stop_process_ok_iff _ _ _).mp hp)

/-- C10 witness: host "h", task name "t", empty registry, processes 1 and
2. -/
theorem duplicate_task_name_overwrites_registry_witness :
    (1 : Nat) ≠ 2 ∧ (∀ k, dict_lookup ([] : List (String × Nat)) k ≠ some 1) ∧
    (get_process (register_task_process "h" (register_task_process "h" [] "t" 1) "t" 2)
        (create_process_key_for_task_execution "h" "t") = Except.ok 2 ∧
      (∀ k, dict_lookup
          (register_task_process "h" (register_task_process "h" [] "t" 1) "t" 2) k ≠ some 1) ∧
      (∀ k, stop_process
          (register_task_process "h" (register_task_process "h" [] "t" 1) "t" 2) k ≠
        Except.ok 1)) :=
  ⟨by decide, fun k => by simp [dict_lookup],
    duplicate_task_name_overwrites_registry "h" "t" [] 1 2 (by decide)
      (fun k => by simp [dict_lookup])⟩

/-- C5: a RUN_COMMAND step — standalone or generated inside a RUN_FUNCTION
expansion — raises TaskExecutionError exactly when the remote command exits
non-zero, and the raised error carries the step index, the task (name and
steps), the host, the execution-log file path and the captured output.  For a
task whose first and only step is a failing command the carried index is 0,
both when the step is elementary and when it sits inside the first
RUN_FUNCTION step. -/
theorem run_command_step_raises_iff_nonzero_exit (conn : String → RunResult)
    (task_name : String) (task_steps : List TaskStep) (host log_path command : String)
    (idx : Nat) (log : List String) :
    (execute_run_command_step conn task_name task_steps host log_path command idx log).2 =
      (if (conn command).exited ≠ 0 then
        some ⟨idx, task_name, task_steps, host, log_path, (conn command).stdout⟩
      else none) ∧
    runtime_task_execute conn task_name host log_path [TaskStep.run_command command] =
      ([(conn command).stdout],
        if (conn command).exited ≠ 0 then
          some ⟨0, task_name, [TaskStep.run_command command], host, log_path,
            (conn command).stdout⟩
        else none) ∧
    runtime_task_execute conn task_name host log_path
        [TaskStep.run_function [TaskStep.run_command command]] =
      ([(conn command).stdout],
        if (conn command).exited ≠ 0 then
          some ⟨0, task_name, [TaskStep.run_function [TaskStep.run_command command]], host,
            log_path, (conn command).stdout⟩
        else none) := by
  by_cases h : (conn command).exited ≠ 0 <;>
    simp [execute_run_command_step, runtime_task_execute, execute_task_steps,
      execute_function_steps, h]

/-- C7 counterexample: starting from a fresh Runtime, set the working
directory to "/a" and then assign env_variables a dict that maps WORKING_DIR
to "/b".  The setter keeps the caller's WORKING_DIR entry (it only re-adds
the key when absent), so afterwards env[WORKING_DIR] = "/b" while the working
directory is "/a": the claimed invariant fails for this sequence of public
operations. -/
theorem env_invariant_broken_by_env_override :
    ¬ env_invariant (run_env_ops runtime_initial_env_state
        [EnvOp.set_working_dir "/a",
         EnvOp.set_env_variables [(WORKING_DIR_ENV_VAR_NAME, "/b")]]) := fun hinv =>
  absurd (hinv "/a" (by decide) (by decide)) (by decide)

/-- One public operation preserves the invariant provided any environment
dict it hands the Runtime lacks the WORKING_DIR key. -/
theorem apply_env_op_preserves_invariant (s : RuntimeEnvState) (op : EnvOp)
    (hop : env_op_overrides_working_dir op = false) (hs : env_invariant s) :
    env_invariant (apply_env_op s op).1 := by
  cases op with
  | set_working_dir wd =>
      intro w hw _
      simp only [apply_env_op] at hw ⊢
      obtain rfl : wd = w := by simpa using hw
      rw [dict_lookup_dict_set]
      simp
  | set_env_variables d =>
      have hd : dict_mem d WORKING_DIR_ENV_VAR_NAME = false := by
        simpa [env_op_overrides_working_dir] using hop
      intro w hw hne
      simp only [apply_env_op, hd, Bool.false_eq_true, if_false] at hw ⊢
      cases hs2 : s.working_dir with
      | none =>
          rw [hs2] at hw
          simp at hw
      | some wd =>
          rw [hs2] at hw
          by_cases hwd : wd = ""
          · subst hwd
            simp at hw
            subst hw
            exact absurd rfl hne
          · simp only [hwd, if_false] at hw ⊢
            obtain rfl : wd = w := by simpa using hw
            rw [dict_lookup_dict_set]
            simp
  | add_env_variables d =>
      have hd : dict_mem d WORKING_DIR_ENV_VAR_NAME = false := by
        simpa [env_op_overrides_working_dir] using hop
      intro w hw hne
      simp only [apply_env_op] at hw ⊢
      rw [dict_lookup_dict_update_not_mem _ _ _ hd]
      exact hs w hw hne
  | exec_task tmp =>
      by_cases ht : py_truthy_str s.working_dir
      · simpa [apply_env_op, ht] using hs
      · intro w hw _
        simp only [apply_env_op, ht, Bool.false_eq_true, if_false] at hw ⊢
        obtain rfl : tmp = w := by simpa using hw
        rw [dict_lookup_dict_set]
        simp

/-- A sequence of safe operations preserves the invariant, also when an
assert aborts the sequence early. -/
theorem run_env_ops_preserves_invariant (ops : List EnvOp) (s : RuntimeEnvState)
    (hops : ∀ op ∈ ops, env_op_overrides_working_dir op = false)
    (hs : env_invariant s) : env_invariant (run_env_ops s ops) := by
  induction ops generalizing s with
  | nil => exact hs
  | cons op rest ih =>
      have h1 := apply_env_op_preserves_invariant s op (hops op (by simp)) hs
      by_cases hr : (apply_env_op s op).2
      · simpa [run_env_ops, hr] using h1
      · simpa [run_env_ops, hr] using ih _ (fun o ho => hops o (by simp [ho])) h1

/-- C7 amended: starting from a fresh Runtime, after any sequence of the
public operations in which no dict passed to the env_variables setter or to
add_env_variables itself contains the WORKING_DIR key, env[WORKING_DIR]
equals the working directory whenever the working directory is set and
non-empty.  The restriction is forced by the counterexample: a caller-supplied
WORKING_DIR entry is kept as-is and can break the invariant. -/
theorem env_invariant_holds_without_working_dir_override (ops : List EnvOp)
    (hops : ∀ op ∈ ops, env_op_overrides_working_dir op = false) :
    env_invariant (run_env_ops runtime_initial_env_state ops) :=
  run_env_ops_preserves_invariant ops runtime_initial_env_state hops
    (fun wd hw _ => by simp [runtime_initial_env_state] at hw)

/-- C7 amended witness: set the working directory, add an unrelated env
variable, then execute a task. -/
theorem env_invariant_holds_witness :
    (∀ op ∈ [EnvOp.set_working_dir "/a", EnvOp.add_env_variables [("X", "1")],
        EnvOp.exec_task "/tmp/t"],
      env_op_overrides_working_dir op = false) ∧
    env_invariant (run_env_ops runtime_initial_env_state
      [EnvOp.set_working_dir "/a", EnvOp.add_env_variables [("X", "1")],
        EnvOp.exec_task "/tmp/t"]) :=
  ⟨by decide, env_invariant_holds_without_working_dir_override _ (by decide)⟩

/-- The values yielded by function_returns are exactly the filesystem oracle
applied to each registered path, in order. -/
theorem function_returns_values {α : Type} (fs : String → Option α) (paths : List String) :
    (function_returns fs paths).1 = paths.map fs := by
  induction paths with
  | nil => rfl
  | cons p rest ih =>
      cases h : fs p <;> simp [function_returns, h, ih]

/-- function_returns emits one warning per registered path whose file is
missing, in order. -/
theorem function_returns_warnings {α : Type} (fs : String → Option α) (paths : List String) :
    (function_returns fs paths).2 =
      (paths.filter (fun p => (fs p).isNone)).map missing_return_warning := by
  induction paths with
  | nil => rfl
  | cons p rest ih =>
      cases h : fs p <;> simp [function_returns, h, ih]

/-- Each run_function call appends exactly one return-artifact path. -/
theorem run_function_register_all_length (function_names : List String)
    (temp_dir : String) (s : FnRegState) :
    (run_function_register_all s temp_dir function_names).return_pkl_paths.length =
      s.return_pkl_paths.length + function_names.length := by
  induction function_names generalizing s with
  | nil => simp [run_function_register_all]
  | cons n rest ih =>
      have step : run_function_register_all s temp_dir (n :: rest) =
          run_function_register_all (run_function_register s temp_dir n) temp_dir rest := by
        simp [run_function_register_all]
      rw [step, ih]
      simp [run_function_register]
      omega

/-- C8: a task on which run_function was called once per entry of
function_names (with the program-global pickle counter starting anywhere)
carries exactly one return-artifact path per registration; function_returns
then yields exactly one value per registration in registration order — the
unpickled file content, or the placeholder none when the file is missing —
and emits one warning per missing file instead of raising (the function is
total). -/
theorem function_returns_one_per_registration {α : Type} (fs : String → Option α)
    (temp_dir : String) (function_names : List String) (i : Nat) :
    ((run_function_register_all ⟨i, []⟩ temp_dir function_names).return_pkl_paths).length
      = function_names.length ∧
    (function_returns fs
        (run_function_register_all ⟨i, []⟩ temp_dir function_names).return_pkl_paths).1 =
      ((run_function_register_all ⟨i, []⟩ temp_dir function_names).return_pkl_paths).map fs ∧
    (function_returns fs
        (run_function_register_all ⟨i, []⟩ temp_dir function_names).return_pkl_paths).2 =
      (((run_function_register_all ⟨i, []⟩ temp_dir function_names).return_pkl_paths).filter
          (fun p => (fs p).isNone)).map missing_return_warning := by
  refine ⟨?_, function_returns_values fs _, function_returns_warnings fs _⟩
  simpa using run_function_register_all_length function_names temp_dir ⟨i, []⟩

/-- Once the skip flag of the get_remaining_ports loop is cleared, every
remaining port is kept. -/
theorem get_remaining_ports_loop_no_skip (last : Nat) (l : List Nat) :
    get_remaining_ports_loop last l false = l := by
  induction l with
  | nil => rfl
  | cons p rest ih => simp [get_remaining_ports_loop, ih]

/-- get_remaining_ports cuts the list just after the first occurrence of the
last used port. -/
theorem get_remaining_ports_after_first (l₁ l₂ : List Nat) (p : Nat) (h : p ∉ l₁) :
    get_remaining_ports (l₁ ++ p :: l₂) p = l₂ := by
  unfold get_remaining_ports
  induction l₁ with
  | nil => simp [get_remaining_ports_loop, get_remaining_ports_loop_no_skip]
  | cons q rest ih =>
      have hq : ¬q = p := fun e => h (e ▸ List.mem_cons_self q rest)
      have h2 : p ∉ rest := fun e => h (List.mem_cons_of_mem q e)
      simpa [get_remaining_ports_loop, hq] using ih h2

/-- The get_free_port scan raises NoPortsLeftError exactly when no port of
the list is free in the whole group (in particular on the empty list). -/
theorem get_free_port_error_iff (freeOn : String → Nat → Bool) (hosts : List String)
    (ports : List Nat) :
    get_free_port freeOn hosts ports = Except.error () ↔
      ∀ q ∈ ports, group_has_free_port freeOn hosts q = false := by
  induction ports with
  | nil => simp [get_free_port]
  | cons p rest ih =>
      by_cases h : group_has_free_port freeOn hosts p
      · simp [get_free_port, h]
      · simp only [Bool.not_eq_true] at h
        simp [get_free_port, h, ih]

/-- When the get_free_port scan returns a port, that port is free in the
group and is the first such port: every port left of it in the list is not
free. -/
theorem get_free_port_ok_decompose (freeOn : String → Nat → Bool) (hosts : List String)
    (ports : List Nat) (p : Nat)
    (h : get_free_port freeOn hosts ports = Except.ok p) :
    group_has_free_port freeOn hosts p = true ∧
    ∃ l₁ l₂, ports = l₁ ++ p :: l₂ ∧
      ∀ q ∈ l₁, group_has_free_port freeOn hosts q = false := by
  induction ports with
  | nil => simp [get_free_port] at h
  | cons q rest ih =>
      by_cases hq : group_has_free_port freeOn hosts q
      · have hqp : q = p := by simpa [get_free_port, hq] using h
        subst hqp
        exact ⟨hq, [], rest, rfl, by simp⟩
      · simp only [Bool.not_eq_true] at hq
        rw [get_free_port, hq] at h
        simp only [Bool.false_eq_true, if_false] at h
        obtain ⟨hp, l₁, l₂, hdec, hall⟩ := ih h
        refine ⟨hp, q :: l₁, l₂, by simp [hdec], ?_⟩
        intro x hx
        rcases List.mem_cons.mp hx with rfl | hx
        · exact hq
        · exact hall x hx

/-- C9 counterexample: one runtime on which every port is free, and the port
list [5, 5].  get_free_port returns 5, and get_remaining_ports([5, 5], 5) is
[5]: the returned port is still contained in the remaining list, contrary to
the claim that p itself is absent. -/
theorem remaining_ports_keep_duplicate_of_returned_port :
    get_free_port (fun _ _ => true) ["h"] [5, 5] = Except.ok 5 ∧
    get_remaining_ports [5, 5] 5 = [5] ∧
    5 ∈ get_remaining_ports [5, 5] 5 :=
  ⟨rfl, by decide, by decide⟩

/-- C9 amended: for a duplicate-free port list, get_free_port scans left to
right and returns the first port free on all runtimes of the group (raising
NoPortsLeftError when the list is empty or exhausted), and
get_remaining_ports(list, p) then contains exactly the ports strictly after p
in the list; p itself and every port before it are absent.  Duplicate-free is
forced by the counterexample: with duplicates the returned port can reappear
after its first occurrence. -/
theorem free_port_scan_and_remaining_ports (freeOn : String → Nat → Bool)
    (hosts : List String) (ports : List Nat) (hnd : ports.Nodup) :
    (get_free_port freeOn hosts ports = Except.error () ↔
      ∀ q ∈ ports, group_has_free_port freeOn hosts q = false) ∧
    ∀ p, get_free_port freeOn hosts ports = Except.ok p →
      group_has_free_port freeOn hosts p = true ∧
      ∃ l₁ l₂, ports = l₁ ++ p :: l₂ ∧
        (∀ q ∈ l₁, group_has_free_port freeOn hosts q = false) ∧
        get_remaining_ports ports p = l₂ ∧
        p ∉ l₂ ∧ (∀ q ∈ l₁, q ∉ l₂) := by
  refine ⟨get_free_port_error_iff freeOn hosts ports, ?_⟩
  intro p hp
  obtain ⟨hfree, l₁, l₂, hdec, hall⟩ := get_free_port_ok_decompose freeOn hosts ports p hp
  subst hdec
  rw [List.nodup_append] at hnd
  obtain ⟨h1, h2, h3⟩ := hnd
  have hpl₁ : p ∉ l₁ := fun hmem => h3 hmem (List.mem_cons_self p l₂)
  refine ⟨hfree, l₁, l₂, rfl, hall,
    get_remaining_ports_after_first l₁ l₂ p hpl₁, (List.nodup_cons.mp h2).1, ?_⟩
  intro q hq hql₂
  exact h3 hq (List.mem_cons_of_mem p hql₂)

/-- C9 amended witness: two runtimes where only port 7000 is busy and the
port list [7000, 7001, 7002]. -/
theorem free_port_scan_witness :
    ([7000, 7001, 7002] : List Nat).Nodup ∧
    ((get_free_port (fun _ q => q != 7000) ["A", "B"] [7000, 7001, 7002] =
        Except.error () ↔
      ∀ q ∈ ([7000, 7001, 7002] : List Nat),
        group_has_free_port (fun _ q => q != 7000) ["A", "B"] q = false) ∧
    ∀ p, get_free_port (fun _ q => q != 7000) ["A", "B"] [7000, 7001, 7002] =
        Except.ok p →
      group_has_free_port (fun _ q => q != 7000) ["A", "B"] p = true ∧
      ∃ l₁ l₂, ([7000, 7001, 7002] : List Nat) = l₁ ++ p :: l₂ ∧
        (∀ q ∈ l₁, group_has_free_port (fun _ q => q != 7000) ["A", "B"] q = false) ∧
        get_remaining_ports [7000, 7001, 7002] p = l₂ ∧
        p ∉ l₂ ∧ (∀ q ∈ l₁, q ∉ l₂)) :=
  ⟨by decide,
    free_port_scan_and_remaining_ports (fun _ q => q != 7000) ["A", "B"]
      [7000, 7001, 7002] (by decide)⟩

end Lazycluster
